import Mathlib

/-!
Shallow embedding of `etl/etl.py` (bike-share ingestion-and-aggregation
pipeline) and verification of its specification claims.

Conventions of the embedding:
* pandas cells are `Option String` (`none` models NaN/NaT; `dtype=str` is in
  force throughout the source, so string cells suffice);
* a DataFrame is a column-label list plus a list of rows (row-major, as the
  CSV is read);
* the zip container is modelled structurally: bytes either decode as a zip
  (list of named entries, each entry's decompressed payload given as the list
  of CSV records, fields already split) or they do not (`Bytes.nonzip`),
  in which case `zipfile.ZipFile` raises;
* Python string methods used by the source (`.lower()`, `.strip()`,
  `.endswith()`, `.find()`) are re-implemented over character lists because
  the ASCII column labels and entry names are all the source ever applies
  them to;
* timestamps: `pd.to_datetime(errors="coerce", utc=True)` is modelled on the
  naive ISO subfamily `YYYY-MM-DD` / `YYYY-MM-DD HH:MM:SS` that these files
  use; strings outside the subfamily are treated as unparsable (coerced to
  NaT), matching pandas on every input used in the theorems below.
-/

/-! ## Python string helpers (ASCII) -/

/-- ASCII lowercase of one character, as Python `str.lower` acts on ASCII. -/
def lowerChar (c : Char) : Char :=
  if 'A' ≤ c ∧ c ≤ 'Z' then Char.ofNat (c.toNat + 32) else c

/-- Python `s.lower()` on ASCII strings. -/
def strLower (s : String) : String := ⟨s.data.map lowerChar⟩

/-- Python whitespace recognized by `str.strip()`. -/
def wsChar (c : Char) : Bool :=
  c = ' ' || c = '\t' || c = '\n' || c = '\r' || c = '\x0b' || c = '\x0c'

/-- Python `s.strip()`: remove leading and trailing whitespace. -/
def strStrip (s : String) : String :=
  ⟨((s.data.dropWhile wsChar).reverse.dropWhile wsChar).reverse⟩

/-- Python `s.endswith(suffix)`. -/
def strEndsWith (s suffix : String) : Bool :=
  suffix.data.isSuffixOf s.data

/-- Containment of `needle` in `hay` as character lists. -/
def charsContain (hay needle : List Char) : Bool :=
  match hay with
  | [] => needle.isEmpty
  | _ :: t => needle.isPrefixOf hay || charsContain t needle

/-- Python `s.find(sub) != -1`: substring containment. -/
def strFind (s sub : String) : Bool := charsContain s.data sub.data

/-! ## Cells and timestamp parsing -/

/-- A pandas cell under `dtype=str`: a string, or NaN (`none`). -/
abbrev Cell := Option String

/-- Reading one raw CSV field under `dtype=str`: pandas turns an empty field
into NaN. -/
def parseCell (s : String) : Cell := if s = "" then none else some s

/-- `series.str.lower()`: NaN stays NaN, strings are lowercased. -/
def cellLower (c : Cell) : Cell := c.map strLower

/-- `series.fillna(v)`. -/
def fillnaCell (c : Cell) (v : String) : Cell :=
  match c with
  | none => some v
  | some s => some s

/-- `series.map({"subscriber": "member", "customer": "casual"})`: keys not in
the dict (including NaN) map to NaN. -/
def usertypeDict (c : Cell) : Cell :=
  match c with
  | some "subscriber" => some "member"
  | some "customer" => some "casual"
  | _ => none

/-- Numeric value of an ASCII digit character. -/
def digitVal (c : Char) : Int := (c.toNat : Int) - 48

/-- Year encoded by four digit characters. -/
def yearVal (y1 y2 y3 y4 : Char) : Int :=
  1000 * digitVal y1 + 100 * digitVal y2 + 10 * digitVal y3 + digitVal y4

/-- Validity of a `YYYY-MM-DD` digit block (month 1..12, day 1..31), the
calendar check `pd.to_datetime` performs before accepting a date. -/
def validYMD (y1 y2 y3 y4 m1 m2 d1 d2 : Char) : Bool :=
  y1.isDigit && y2.isDigit && y3.isDigit && y4.isDigit &&
  m1.isDigit && m2.isDigit && d1.isDigit && d2.isDigit &&
  decide (1 ≤ 10 * digitVal m1 + digitVal m2) &&
  decide (10 * digitVal m1 + digitVal m2 ≤ 12) &&
  decide (1 ≤ 10 * digitVal d1 + digitVal d2) &&
  decide (10 * digitVal d1 + digitVal d2 ≤ 31)

/-- Validity of an `HH:MM:SS` digit block. -/
def validHMS (h1 h2 n1 n2 s1 s2 : Char) : Bool :=
  h1.isDigit && h2.isDigit && n1.isDigit && n2.isDigit && s1.isDigit && s2.isDigit &&
  decide (10 * digitVal h1 + digitVal h2 ≤ 23) &&
  decide (digitVal n1 ≤ 5) && decide (digitVal s1 ≤ 5)

/-- Model of `pd.to_datetime(s, errors="coerce", utc=True)` restricted to the
naive ISO shapes `YYYY-MM-DD` and `YYYY-MM-DD HH:MM:SS`; the result is the
year of the parsed timestamp (the only component the source inspects, via
`.dt.year`), `none` meaning NaT. -/
def parseTimestamp (s : String) : Option Int :=
  match s.data with
  | [y1, y2, y3, y4, '-', m1, m2, '-', d1, d2] =>
    if validYMD y1 y2 y3 y4 m1 m2 d1 d2 then some (yearVal y1 y2 y3 y4) else none
  | [y1, y2, y3, y4, '-', m1, m2, '-', d1, d2, ' ', h1, h2, ':', n1, n2, ':', s1, s2] =>
    if validYMD y1 y2 y3 y4 m1 m2 d1 d2 && validHMS h1 h2 n1 n2 s1 s2 then
      some (yearVal y1 y2 y3 y4)
    else none
  | _ => none

/-- Effect of `pd.to_datetime(col, errors="coerce", utc=True)` on one cell:
unparsable values become NaT (`none`); a parsable value is kept (represented
by its source string, which determines the timestamp). -/
def toDatetimeCoerce (c : Cell) : Cell :=
  match c with
  | none => none
  | some s => if (parseTimestamp s).isSome then some s else none

/-- `.dt.year` of a timestamp cell: `none` on NaT (so that the comparison
`.dt.year == YEAR` is false on NaT rows, exactly as in pandas where
`NaN == YEAR` is false). -/
def cellYear (c : Cell) : Option Int := c.bind parseTimestamp

/-! ## DataFrames -/

/-- A pandas DataFrame under `dtype=str`: column labels plus row-major cells.
Every operation the source performs is modelled below. -/
structure DataFrame where
  cols : List String
  rows : List (List Cell)
deriving Repr, DecidableEq

/-- `c in df.columns`. -/
def DataFrame.hasCol (df : DataFrame) (c : String) : Bool := df.cols.contains c

/-- Position of column `c` (first occurrence), if present. -/
def DataFrame.colIdx (df : DataFrame) (c : String) : Option Nat := df.cols.indexOf? c

/-- Value of column `c` in row `r` of `df` (the row is one of `df.rows`). -/
def DataFrame.getAt (df : DataFrame) (c : String) (r : List Cell) : Cell :=
  match df.cols.indexOf? c with
  | some i => r.getD i none
  | none => none

/-- `df[c] = f(df[c])`: map a function over one existing column. -/
def DataFrame.mapCol (df : DataFrame) (c : String) (f : Cell → Cell) : DataFrame :=
  match df.cols.indexOf? c with
  | some i => { df with rows := df.rows.map (fun r => r.set i (f (r.getD i none))) }
  | none => df

/-- `df[c] = <series derived row-wise>` for a column `c` not yet present:
append the column, computing its value from each row. -/
def DataFrame.addColBy (df : DataFrame) (c : String) (f : List Cell → Cell) : DataFrame :=
  { cols := df.cols ++ [c], rows := df.rows.map (fun r => r ++ [f r]) }

/-! ## Zip container and CSV decoding (`read_trips_from_zip`) -/

/-- One entry of the zip container: its name and its decompressed payload as
CSV records (fields already split on commas). -/
structure ZipEntry where
  name : String
  content : List (List String)
deriving Repr, DecidableEq

/-- Raw fetched bytes: either they decode as a zip container or they do not
(in which case `zipfile.ZipFile` raises `BadZipFile`). -/
inductive Bytes where
  | zip (entries : List ZipEntry)
  | nonzip (raw : List Nat)
deriving Repr, DecidableEq

/-- The exceptions `read_trips_from_zip` can raise: `BadZipFile` from
`zipfile`, the source's own `ValueError("No CSV found in zip")`, and the
pandas `read_csv` failures `EmptyDataError` (empty payload) and
`ParserError` (a record with more fields than the header). -/
inductive ReadError where
  | badZip
  | noCsv
  | emptyData
  | tooManyFields
deriving Repr, DecidableEq

/-- Recognized columns, line 38-43 of the source (`usecols`). Note that
`"usertype"` is not in this list. -/
def usecolsList : List String :=
  ["started_at", "ended_at",
   "start_station_id", "start_station_name",
   "end_station_id", "end_station_name",
   "member_casual"]

/-- Pad a record to the header width with empty fields (pandas fills missing
trailing fields with NaN; `parseCell ""` is `none`). -/
def padTo (n : Nat) (r : List String) : List String :=
  r ++ List.replicate (n - r.length) ""

/-- Model of `pd.read_csv(f, dtype=str, usecols=lambda c: keep c)`: the first
record is the header; a column is kept iff `keep` holds of its raw label;
an empty payload raises `EmptyDataError`; a record wider than the header
raises `ParserError`. Kept cells are read under `dtype=str`. -/
def readCsv (keep : String → Bool) (content : List (List String)) :
    Except ReadError DataFrame :=
  match content with
  | [] => .error .emptyData
  | header :: data =>
    if data.any (fun r => header.length < r.length) then .error .tooManyFields
    else
      .ok { cols := header.filter keep
            rows := data.map (fun r =>
              ((header.zip (padTo header.length r)).filter (fun p => keep p.1)).map
                (fun p => parseCell p.2)) }

/-- Line 49: `df.columns = [c.strip().lower() for c in df.columns]`. -/
def relabel (df : DataFrame) : DataFrame :=
  { df with cols := df.cols.map (fun c => strLower (strStrip c)) }

/-- Lines 51-54: parse `started_at` / `ended_at` with coercion. -/
def parseDates (df : DataFrame) : DataFrame :=
  let d1 := if df.hasCol "started_at" then df.mapCol "started_at" toDatetimeCoerce else df
  if d1.hasCol "ended_at" then d1.mapCol "ended_at" toDatetimeCoerce else d1

/-- Lines 56-65: derive the rider column. If `member_casual` exists it is
lowercased in place; otherwise, if `usertype` exists, it is lowercased and
mapped through the legacy dict; otherwise the scalar `"unknown"` is
broadcast. -/
def deriveRider (df : DataFrame) : DataFrame :=
  if df.hasCol "member_casual" then df.mapCol "member_casual" cellLower
  else if df.hasCol "usertype" then
    df.addColBy "member_casual" (fun r => usertypeDict (cellLower (df.getAt "usertype" r)))
  else df.addColBy "member_casual" (fun _ => some "unknown")

/-- Lines 67-68: `df = df[df["started_at"].dt.year == YEAR]`. -/
def yearFilter (year : Int) (df : DataFrame) : DataFrame :=
  if df.hasCol "started_at" then
    { df with rows := df.rows.filter (fun r =>
        decide (cellYear (df.getAt "started_at" r) = some year)) }
  else df

/-- Lines 30-69: `read_trips_from_zip`. The `year` parameter is the module
constant `YEAR` the Python function reads. -/
def read_trips_from_zip (zbytes : Bytes) (year : Int) : Except ReadError DataFrame :=
  match zbytes with
  | .nonzip _ => .error .badZip
  | .zip entries =>
    match entries.filter (fun e => strEndsWith (strLower e.name) ".csv") with
    | [] => .error .noCsv
    | e :: _ =>
      match readCsv (fun c => usecolsList.contains c) e.content with
      | .error err => .error err
      | .ok df0 => .ok (yearFilter year (deriveRider (parseDates (relabel df0))))

/-- The records of the first CSV-named entry of a zip, when one exists
(observer used to state theorems about the selected entry). -/
def firstCsvContent (zbytes : Bytes) : Option (List (List String)) :=
  match zbytes with
  | .nonzip _ => none
  | .zip entries =>
    ((entries.filter (fun e => strEndsWith (strLower e.name) ".csv")).head?).map
      (fun e => e.content)

/-! ## Fetching (`try_fetch_zip`) and the source locator (`month_url`) -/

/-- A completed HTTP response: status code, optional `Content-Type` header,
and body bytes. -/
structure HttpResponse where
  status : Nat
  contentTypeHeader : Option String
  content : Bytes
deriving Repr, DecidableEq

/-- Lines 21-28: `try_fetch_zip`. Returns the body on status 200 (with or
without a zip `Content-Type`), `None` otherwise. -/
def try_fetch_zip (r : HttpResponse) : Option Bytes :=
  if r.status == 200 && strFind (strLower (r.contentTypeHeader.getD "")) "zip" then
    some r.content
  else if r.status == 200 then some r.content
  else none

/-- Python `f"{i:02d}"`: zero-pad to width two (a sign counts toward the
width, as in Python). -/
def fmt02 (i : Int) : String :=
  if 0 ≤ i ∧ i < 10 then "0" ++ toString i else toString i

/-- Line 10: the S3 base URL. -/
def S3_BASE : String := "https://s3.amazonaws.com/tripdata"

/-- Lines 16-19: `month_url` (the vendor code `"JC"` is the module constant
on line 8). -/
def month_url (year month : Int) : String :=
  S3_BASE ++ "/" ++ ("JC" ++ "-" ++ (toString year ++ fmt02 month) ++ "-citibike-tripdata.csv.zip")

/-- Line 110: `f"{YEAR}-{m:02d}"`. -/
def monthKey (year month : Int) : String := toString year ++ "-" ++ fmt02 month

/-! ## Aggregation (`safe_name`, grouped counts, `top5`) -/

/-- Lines 74-77: `safe_name`. -/
def safe_name (c : Cell) : String :=
  match c with
  | none => "Unknown"
  | some s => s

/-- One row of a grouped-count table (after the rename to
`station_id`/`station_name` on lines 141, 147, 153, 159). -/
structure GroupRow where
  station_id : Cell
  station_name : Cell
  trips : Nat
deriving Repr, DecidableEq

/-- One leaderboard entry as emitted by `top5`. -/
structure StationCount where
  station_id : String
  station_name : String
  trips : Nat
deriving Repr, DecidableEq

/-- Descending-trips ordering used by `nlargest(5, "trips")`. -/
def tripsDesc (a b : GroupRow) : Prop := b.trips ≤ a.trips

instance : DecidableRel tripsDesc := fun a b => Nat.decLe b.trips a.trips

/-- `grouped_counts.nlargest(n, "trips")`: the n largest rows by trips,
descending, stable (pandas `keep="first"`); a stable sort followed by a
prefix. -/
def nlargestTrips (n : Nat) (l : List GroupRow) : List GroupRow :=
  (l.insertionSort tripsDesc).take n

/-- Lines 79-88: `top5`. -/
def top5 (grouped : List GroupRow) : List StationCount :=
  (nlargestTrips 5 grouped).map (fun r =>
    { station_id := safe_name r.station_id
      station_name := safe_name r.station_name
      trips := r.trips })

/-- First-occurrence deduplication of grouping keys (helper for `groupSize`).
`seen` accumulates keys already emitted. -/
def dedupAux : List (Cell × Cell) → List (Cell × Cell) → List (Cell × Cell)
  | [], _ => []
  | k :: t, seen => if k ∈ seen then dedupAux t seen else k :: dedupAux t (k :: seen)

/-- `df.groupby([idCol, nameCol], dropna=False).size().reset_index(name="trips")`
(lines 138-160): one output row per distinct key pair, NaN keys grouped like
any other value (`dropna=False`), with the number of occurrences. pandas
lists groups in sorted key order; the claims proved below are insensitive to
the order of this table, and keys are listed here in first-occurrence
order. -/
def groupSize (df : DataFrame) (idCol nameCol : String) : List GroupRow :=
  let keys := df.rows.map (fun r => (df.getAt idCol r, df.getAt nameCol r))
  (dedupAux keys []).map (fun k =>
    { station_id := k.1, station_name := k.2, trips := keys.count k })

/-- Line 133: `df["member_casual"] = df["member_casual"].fillna("unknown").str.lower()`. -/
def memberCasualClean (df : DataFrame) : DataFrame :=
  df.mapCol "member_casual" (fun c => cellLower (fillnaCell c "unknown"))

/-- Lines 134-135: `df[df["member_casual"] == cat]`. -/
def filterCategory (df : DataFrame) (cat : String) : DataFrame :=
  { df with rows := df.rows.filter (fun r =>
      decide (df.getAt "member_casual" r = some cat)) }

/-! ## The orchestrator month loop (`run`, lines 91-115) -/

/-- Outcome of one `requests.get`: a completed response, or a raised
transport exception (timeout, connection error, body-read failure). -/
inductive FetchResult where
  | resp (r : HttpResponse)
  | raises
deriving Repr

/-- How the modelled `run` terminates abnormally: an uncaught transport
exception escaping the month loop, or line 115's
`RuntimeError("No 2025 monthly files found.")`. -/
inductive RunError where
  | transportError
  | noDataFound
deriving Repr, DecidableEq

/-- The iteration `for m in range(1, 13)`. -/
def monthsRange : List Int := [1, 2, 3, 4, 5, 6, 7, 8, 9, 10, 11, 12]

/-- Lines 97-112: the month loop. `fetch` gives, per URL, the outcome of
`requests.get`. `try_fetch_zip` returning `None` skips the month; an
exception from `read_trips_from_zip` is caught (lines 105-109) and skips the
month; an exception from the fetch itself is NOT caught anywhere in `run`
and aborts the loop. -/
def collectMonthsAux (fetch : String → FetchResult) (year : Int) :
    List Int → List (String × DataFrame) → Except RunError (List (String × DataFrame))
  | [], acc => .ok acc
  | m :: ms, acc =>
    match fetch (month_url year m) with
    | .raises => .error .transportError
    | .resp r =>
      match try_fetch_zip r with
      | none => collectMonthsAux fetch year ms acc
      | some z =>
        match read_trips_from_zip z year with
        | .error _ => collectMonthsAux fetch year ms acc
        | .ok df => collectMonthsAux fetch year ms (acc ++ [(monthKey year m, df)])

/-- Lines 97-115: month collection phase of `run`, including the fatal
`RuntimeError` when no month succeeded. -/
def runCollect (fetch : String → FetchResult) (year : Int) :
    Except RunError (List (String × DataFrame)) :=
  match collectMonthsAux fetch year monthsRange [] with
  | .error e => .error e
  | .ok [] => .error .noDataFound
  | .ok acc => .ok acc

/-! ## Structural lemmas about the embedded DataFrame pipeline -/

/-- Rectangularity: every row has exactly one cell per column. All frames the
source builds satisfy it. -/
def DataFrame.Rect (df : DataFrame) : Prop :=
  ∀ r ∈ df.rows, r.length = df.cols.length

theorem length_padTo (n : Nat) (r : List String) :
    (padTo n r).length = max r.length n := by
  simp [padTo]
  omega

theorem zip_filter_length (keep : String → Bool) :
    ∀ (l₁ l₂ : List String), l₁.length ≤ l₂.length →
      ((l₁.zip l₂).filter (fun p => keep p.1)).length = (l₁.filter keep).length := by
  intro l₁
  induction l₁ with
  | nil => intro l₂ _; simp
  | cons a t ih =>
    intro l₂ hle
    cases l₂ with
    | nil => simp at hle
    | cons b u =>
      simp only [List.zip_cons_cons, List.filter_cons]
      cases keep a <;> simp [ih u (by simpa using hle)]

theorem readCsv_cons (keep : String → Bool) (header : List String)
    (data : List (List String)) :
    readCsv keep (header :: data) =
      if data.any (fun r => header.length < r.length) then .error .tooManyFields
      else .ok { cols := header.filter keep
                 rows := data.map (fun r =>
                   ((header.zip (padTo header.length r)).filter (fun p => keep p.1)).map
                     (fun p => parseCell p.2)) } := rfl

theorem readCsv_ok {keep : String → Bool} {header : List String}
    {data : List (List String)} {df : DataFrame}
    (hok : readCsv keep (header :: data) = .ok df) :
    df.cols = header.filter keep ∧
    df.rows = data.map (fun r =>
      ((header.zip (padTo header.length r)).filter (fun p => keep p.1)).map
        (fun p => parseCell p.2)) := by
  rw [readCsv_cons] at hok
  split at hok
  · exact absurd hok (by simp)
  · injection hok with h
    subst h
    exact ⟨rfl, rfl⟩

theorem readCsv_rect {keep : String → Bool} {content : List (List String)}
    {df : DataFrame} (hok : readCsv keep content = .ok df) : df.Rect := by
  cases content with
  | nil => exact absurd hok (by simp [readCsv])
  | cons header data =>
    obtain ⟨hc, hr⟩ := readCsv_ok hok
    intro r hrm
    rw [hr] at hrm
    obtain ⟨r0, _, rfl⟩ := List.mem_map.mp hrm
    rw [hc, List.length_map]
    exact zip_filter_length keep header (padTo header.length r0)
      (by rw [length_padTo]; omega)

theorem mapCol_cols (df : DataFrame) (c : String) (f : Cell → Cell) :
    (df.mapCol c f).cols = df.cols := by
  unfold DataFrame.mapCol
  split <;> rfl

theorem mapCol_rect {df : DataFrame} (c : String) (f : Cell → Cell)
    (h : df.Rect) : (df.mapCol c f).Rect := by
  unfold DataFrame.Rect at *
  rw [mapCol_cols]
  unfold DataFrame.mapCol
  split
  · intro r hr
    obtain ⟨r0, hr0, rfl⟩ := List.mem_map.mp hr
    rw [List.length_set]
    exact h r0 hr0
  · exact h

theorem relabel_rect {df : DataFrame} (h : df.Rect) : (relabel df).Rect := by
  intro r hr
  have : r ∈ df.rows := hr
  rw [h r this]
  simp [relabel]

theorem parseDates_cols (df : DataFrame) : (parseDates df).cols = df.cols := by
  simp only [parseDates]
  split
  · split
    · rw [mapCol_cols, mapCol_cols]
    · rw [mapCol_cols]
  · split
    · rw [mapCol_cols]
    · rfl

theorem parseDates_rect {df : DataFrame} (h : df.Rect) : (parseDates df).Rect := by
  simp only [parseDates]
  split
  · split
    · exact mapCol_rect _ _ (mapCol_rect _ _ h)
    · exact mapCol_rect _ _ h
  · split
    · exact mapCol_rect _ _ h
    · exact h

theorem yearFilter_cols (y : Int) (df : DataFrame) :
    (yearFilter y df).cols = df.cols := by
  unfold yearFilter
  split <;> rfl

theorem yearFilter_rows_subset (y : Int) (df : DataFrame) :
    ∀ r ∈ (yearFilter y df).rows, r ∈ df.rows := by
  unfold yearFilter
  split
  · intro r hr
    exact (List.mem_filter.mp hr).1
  · intro r hr
    exact hr

theorem getAt_eq_of_cols_eq {df₁ df₂ : DataFrame} (h : df₁.cols = df₂.cols)
    (c : String) (r : List Cell) : df₁.getAt c r = df₂.getAt c r := by
  unfold DataFrame.getAt
  rw [h]

theorem usecols_fixed : ∀ c ∈ usecolsList, strLower (strStrip c) = c := by decide

theorem usertype_not_usecols : "usertype" ∉ usecolsList := by decide

theorem mc_mem_usecols : "member_casual" ∈ usecolsList := by decide

theorem indexOf?_append_self {c : String} :
    ∀ {l : List String}, c ∉ l → (l ++ [c]).indexOf? c = some l.length := by
  intro l
  induction l with
  | nil => intro _; simp [List.indexOf?_cons]
  | cons a t ih =>
    intro h
    have ha : ¬ a = c := fun hac => h (hac ▸ List.mem_cons_self a t)
    have ht : c ∉ t := fun hct => h (List.mem_cons_of_mem a hct)
    simp only [List.cons_append, List.indexOf?_cons]
    rw [if_neg (by simpa using ha), ih ht]
    rfl

theorem getD_append_len {α : Type} (r : List α) (v d : α) :
    (r ++ [v]).getD r.length d = v := by
  rw [List.getD_eq_getElem?_getD, List.getElem?_append_right (le_refl _)]
  simp

theorem getAt_addColBy {df : DataFrame} {c : String} {f : List Cell → Cell}
    (hrect : df.Rect) (hc : c ∉ df.cols) :
    ∀ r ∈ (df.addColBy c f).rows, ∃ r0 ∈ df.rows,
      r = r0 ++ [f r0] ∧ (df.addColBy c f).getAt c r = f r0 := by
  intro r hr
  obtain ⟨r0, hr0, rfl⟩ := List.mem_map.mp hr
  refine ⟨r0, hr0, rfl, ?_⟩
  show (match (df.cols ++ [c]).indexOf? c with
        | some i => (r0 ++ [f r0]).getD i none
        | none => none) = f r0
  rw [indexOf?_append_self hc, ← hrect r0 hr0]
  exact getD_append_len r0 (f r0) none

theorem addColBy_cols (df : DataFrame) (c : String) (f : List Cell → Cell) :
    (df.addColBy c f).cols = df.cols ++ [c] := rfl

theorem addColBy_rect {df : DataFrame} (c : String) (f : List Cell → Cell)
    (h : df.Rect) : (df.addColBy c f).Rect := by
  intro r hr
  obtain ⟨r0, hr0, rfl⟩ := List.mem_map.mp hr
  simp [DataFrame.addColBy, h r0 hr0]

theorem hasCol_false_of_not_mem {df : DataFrame} {c : String}
    (h : c ∉ df.cols) : df.hasCol c = false := by
  unfold DataFrame.hasCol
  cases hcc : df.cols.contains c with
  | false => rfl
  | true => exact absurd (List.elem_iff.mp hcc) h

theorem hasCol_true_iff {df : DataFrame} {c : String} :
    df.hasCol c = true ↔ c ∈ df.cols := List.elem_iff

/-- Every column label surviving `relabel` after the `usecols` filter is one
of the seven recognized (already lowercase, already trimmed) names. -/
theorem relabel_cols_sub {header : List String} :
    ∀ c ∈ (header.filter (fun x => usecolsList.contains x)).map
      (fun x => strLower (strStrip x)), c ∈ usecolsList := by
  intro c hc
  obtain ⟨x, hx, rfl⟩ := List.mem_map.mp hc
  have hxu : x ∈ usecolsList := List.elem_iff.mp (List.mem_filter.mp hx).2
  rw [usecols_fixed x hxu]
  exact hxu

/-- A recognized name is among the relabelled kept columns iff it occurs
verbatim in the raw header: selection happens on the raw labels. -/
theorem relabel_filter_mem {header : List String} {c : String}
    (hc : c ∈ usecolsList) :
    c ∈ (header.filter (fun x => usecolsList.contains x)).map
      (fun x => strLower (strStrip x)) ↔ c ∈ header := by
  constructor
  · intro h
    obtain ⟨x, hx, hxe⟩ := List.mem_map.mp h
    obtain ⟨hxh, hxk⟩ := List.mem_filter.mp hx
    have hxu : x ∈ usecolsList := List.elem_iff.mp hxk
    rw [usecols_fixed x hxu] at hxe
    exact hxe ▸ hxh
  · intro h
    exact List.mem_map.mpr ⟨c, List.mem_filter.mpr ⟨h, List.elem_iff.mpr hc⟩,
      usecols_fixed c hc⟩

theorem deriveRider_cols (df : DataFrame) :
    (deriveRider df).cols = df.cols ∨
    (deriveRider df).cols = df.cols ++ ["member_casual"] := by
  unfold deriveRider
  split
  · exact Or.inl (mapCol_cols _ _ _)
  · split
    · exact Or.inr rfl
    · exact Or.inr rfl

theorem deriveRider_mc_mem (df : DataFrame) :
    "member_casual" ∈ (deriveRider df).cols := by
  unfold deriveRider
  split
  · rw [mapCol_cols]
    exact hasCol_true_iff.mp (by assumption)
  · split
    · exact List.mem_append_right _ (List.mem_singleton_self _)
    · exact List.mem_append_right _ (List.mem_singleton_self _)

theorem read_trips_zip_eq (entries : List ZipEntry) (y : Int) :
    read_trips_from_zip (.zip entries) y =
      match entries.filter (fun e => strEndsWith (strLower e.name) ".csv") with
      | [] => .error .noCsv
      | e :: _ =>
        match readCsv (fun c => usecolsList.contains c) e.content with
        | .error err => .error err
        | .ok df0 => .ok (yearFilter y (deriveRider (parseDates (relabel df0)))) := rfl

/-- Decomposition of a successful `read_trips_from_zip`: the selected entry's
records, the decoded frame, and the final pipeline shape. -/
theorem read_trips_ok_elim {zb : Bytes} {y : Int} {df : DataFrame}
    (hok : read_trips_from_zip zb y = .ok df) :
    ∃ header data df0,
      firstCsvContent zb = some (header :: data) ∧
      readCsv (fun c => usecolsList.contains c) (header :: data) = .ok df0 ∧
      df = yearFilter y (deriveRider (parseDates (relabel df0))) := by
  cases zb with
  | nonzip raw => exact absurd hok (by simp [read_trips_from_zip])
  | zip entries =>
    rw [read_trips_zip_eq] at hok
    split at hok
    · exact absurd hok (by simp)
    · rename_i e rest hfil
      split at hok
      · exact absurd hok (by simp)
      · rename_i df0 hcsv
        cases hcont : e.content with
        | nil =>
          rw [hcont] at hcsv
          exact absurd hcsv (by simp [readCsv])
        | cons header data =>
          rw [hcont] at hcsv
          refine ⟨header, data, df0, ?_, hcsv, ?_⟩
          · simp only [firstCsvContent, hfil, List.head?]
            simp [hcont]
          · injection hok with h
            exact h.symm

/-! ## Claim C10 -/

/-- C10: every HTTP response with status 200 is treated as Present with its
raw body bytes regardless of Content-Type (the zip Content-Type test on line
23 never changes the outcome, since line 26 accepts any 200 response), and
every non-200 response is treated as Absent. -/
theorem fetch_status200_content (r : HttpResponse) :
    try_fetch_zip r = if r.status = 200 then some r.content else none := by
  unfold try_fetch_zip
  by_cases h : r.status = 200
  · simp [h]
  · simp [h]

/-! ## Claim C9 -/

/-- C9: normalization is deterministic — equal archive bytes and equal target
year give identical canonical frames. The embedded `read_trips_from_zip` is a
pure function (the Python function reads only its argument and the constant
`YEAR`, and mutates nothing but locals), so the result depends only on the
inputs. -/
theorem normalize_deterministic (a b : Bytes) (y : Int) (h : a = b) :
    read_trips_from_zip a y = read_trips_from_zip b y := by
  rw [h]

/-- Witness for C9 at a concrete archive. -/
theorem normalize_deterministic_witness :
    read_trips_from_zip (.zip [⟨"a.csv", [["member_casual"], ["Member"]]⟩]) 2025 =
      read_trips_from_zip (.zip [⟨"a.csv", [["member_casual"], ["Member"]]⟩]) 2025 :=
  normalize_deterministic (.zip [⟨"a.csv", [["member_casual"], ["Member"]]⟩])
    (.zip [⟨"a.csv", [["member_casual"], ["Member"]]⟩]) 2025 rfl

/-! ## Claim C5 -/

/-- C5 counterexample: for month 13 (outside [1,12]) `month_url` does not
fail with any `InvalidMonth` error — it is a total function and returns an
ordinary identifier string. -/
theorem month_url_month13_cex :
    month_url 2025 13 =
      "https://s3.amazonaws.com/tripdata/JC-202513-citibike-tripdata.csv.zip" := by
  decide

/-- C5 amended: `month_url` is pure and total with no error condition at all
(months outside [1,12] also yield identifier strings). For months in [1,12]
it returns the deterministic identifier built from the fixed vendor prefix,
the four-digit year, and the two-digit zero-padded month, and distinct
months give distinct identifiers. -/
theorem month_url_range_amended :
    ∀ m : Int, 1 ≤ m → m ≤ 12 →
      month_url 2025 m =
        "https://s3.amazonaws.com/tripdata/JC-2025" ++ fmt02 m ++
          "-citibike-tripdata.csv.zip" ∧
      (fmt02 m).length = 2 ∧
      ∀ n : Int, 1 ≤ n → n ≤ 12 → month_url 2025 n = month_url 2025 m → n = m := by
  intro m h1 h2
  interval_cases m <;>
    refine ⟨by decide, by decide, ?_⟩ <;>
    (intro n hn1 hn2; interval_cases n <;> decide)

/-- Witness for C5 amended at month 7. -/
theorem month_url_range_amended_witness :
    month_url 2025 7 =
      "https://s3.amazonaws.com/tripdata/JC-2025" ++ fmt02 7 ++
        "-citibike-tripdata.csv.zip" ∧
    (fmt02 7).length = 2 ∧
    ∀ n : Int, 1 ≤ n → n ≤ 12 → month_url 2025 n = month_url 2025 7 → n = 7 :=
  month_url_range_amended 7 (by decide) (by decide)

/-! ## Claim C6 -/

/-- C6 counterexample: an archive that does contain a CSV-named entry whose
payload is empty still raises at parse time (pandas `EmptyDataError`), so the
absence of a tabular entry is not the only parse-time hard failure. -/
theorem empty_csv_payload_cex :
    read_trips_from_zip (.zip [⟨"a.csv", []⟩]) 2025 = .error .emptyData ∧
    ReadError.emptyData ≠ ReadError.noCsv := by
  exact ⟨rfl, by decide⟩

theorem readCsv_error_kind {keep : String → Bool} {content : List (List String)}
    {err : ReadError} (h : readCsv keep content = .error err) :
    err = .emptyData ∨ err = .tooManyFields := by
  cases content with
  | nil =>
    have : ReadError.emptyData = err := by injection h
    exact Or.inl this.symm
  | cons header data =>
    rw [readCsv_cons] at h
    split at h
    · have : ReadError.tooManyFields = err := by injection h
      exact Or.inr this.symm
    · exact absurd h (by simp)

theorem read_trips_zip_cons {entries : List ZipEntry} {e : ZipEntry}
    {rest : List ZipEntry} {y : Int}
    (hfil : entries.filter (fun e => strEndsWith (strLower e.name) ".csv") = e :: rest) :
    read_trips_from_zip (.zip entries) y =
      match readCsv (fun c => usecolsList.contains c) e.content with
      | .error err => .error err
      | .ok df0 => .ok (yearFilter y (deriveRider (parseDates (relabel df0)))) := by
  rw [read_trips_zip_eq, hfil]

/-- C6 amended: the source's `ValueError("No CSV found in zip")` is raised
precisely when the (valid) zip container holds no entry whose lowercased
name ends in `.csv`; but it is not the only parse-time hard failure — an
empty first CSV payload raises (`EmptyDataError`, see the counterexample),
and non-zip bytes raise `BadZipFile`. When the first CSV entry is non-empty
and well-formed, it is the one decoded and normalization succeeds. -/
theorem no_csv_error_characterization (entries : List ZipEntry) (y : Int) :
    (read_trips_from_zip (.zip entries) y = .error .noCsv ↔
      entries.filter (fun e => strEndsWith (strLower e.name) ".csv") = []) ∧
    (∀ e rest header data,
      entries.filter (fun e => strEndsWith (strLower e.name) ".csv") = e :: rest →
      e.content = header :: data →
      (∀ r ∈ data, r.length ≤ header.length) →
      ∃ df, read_trips_from_zip (.zip entries) y = .ok df) := by
  constructor
  · constructor
    · intro h
      rw [read_trips_zip_eq] at h
      split at h
      · assumption
      · rename_i e rest hfil
        split at h
        · rename_i err hcsv
          have herr : err = ReadError.noCsv := by injection h
          rcases readCsv_error_kind hcsv with h2 | h2 <;> rw [h2] at herr <;>
            exact absurd herr (by decide)
        · exact absurd h (by simp)
    · intro h
      rw [read_trips_zip_eq, h]
  · intro e rest header data hfil hcont hlen
    have hany : (data.any fun r => decide (header.length < r.length)) = false := by
      rw [List.any_eq_false]
      intro r hr
      simp only [decide_eq_true_eq]
      exact Nat.not_lt.mpr (hlen r hr)
    refine ⟨yearFilter y (deriveRider (parseDates (relabel
      { cols := header.filter (fun c => usecolsList.contains c)
        rows := data.map (fun r =>
          ((header.zip (padTo header.length r)).filter
            (fun p => usecolsList.contains p.1)).map
              (fun p => parseCell p.2)) }))), ?_⟩
    rw [read_trips_zip_cons hfil, hcont, readCsv_cons, if_neg (by simp [hany])]

/-- Witness for C6 amended: a one-entry archive with a non-empty CSV payload
normalizes successfully. -/
theorem no_csv_error_characterization_witness :
    ∃ df, read_trips_from_zip (.zip [⟨"a.csv", [["member_casual"], ["Member"]]⟩]) 2025 =
      .ok df :=
  (no_csv_error_characterization [⟨"a.csv", [["member_casual"], ["Member"]]⟩] 2025).2
    ⟨"a.csv", [["member_casual"], ["Member"]]⟩ [] ["member_casual"] [["Member"]]
    (by decide) rfl (by decide)

/-! ## Claim C7 -/

instance : IsTotal GroupRow tripsDesc :=
  ⟨fun a b => Nat.le_total b.trips a.trips⟩

instance : IsTrans GroupRow tripsDesc :=
  ⟨fun _ _ _ hab hbc => le_trans hbc hab⟩

/-- C7: `top5` returns `min 5 (number of groups)` entries (never padded;
with distinct grouping keys, as `groupby` guarantees, the number of rows of
the grouped table is the number of distinct groups), sorted descending by
trips, and their trips sum never exceeds the total over all groups. -/
theorem top5_length_sorted_sum (g : List GroupRow)
    (_hkeys : (g.map (fun r => (r.station_id, r.station_name))).Nodup) :
    (top5 g).length = min 5 g.length ∧
    (top5 g).Pairwise (fun a b => b.trips ≤ a.trips) ∧
    ((top5 g).map StationCount.trips).sum ≤ (g.map GroupRow.trips).sum := by
  refine ⟨?_, ?_, ?_⟩
  · simp [top5, nlargestTrips, List.length_take, List.length_insertionSort]
  · have hs : (g.insertionSort tripsDesc).Pairwise tripsDesc :=
      List.sorted_insertionSort tripsDesc g
    have ht : ((g.insertionSort tripsDesc).take 5).Pairwise tripsDesc :=
      List.Pairwise.sublist (List.take_sublist 5 _) hs
    exact List.pairwise_map.mpr ht
  · have h1 : ((top5 g).map StationCount.trips).sum =
        (((g.insertionSort tripsDesc).take 5).map GroupRow.trips).sum := by
      simp [top5, nlargestTrips, List.map_map]
      rfl
    have h2 : ((g.insertionSort tripsDesc).take 5).map GroupRow.trips =
        ((g.insertionSort tripsDesc).map GroupRow.trips).take 5 :=
      List.map_take _ _ _
    have h3 : (((g.insertionSort tripsDesc).map GroupRow.trips).take 5).sum ≤
        ((g.insertionSort tripsDesc).map GroupRow.trips).sum := by
      conv_rhs => rw [← List.take_append_drop 5
        ((g.insertionSort tripsDesc).map GroupRow.trips)]
      rw [List.sum_append]
      exact Nat.le_add_right _ _
    have h4 : ((g.insertionSort tripsDesc).map GroupRow.trips).sum =
        (g.map GroupRow.trips).sum :=
      ((List.perm_insertionSort tripsDesc g).map GroupRow.trips).sum_eq
    rw [h1, h2]
    exact h4 ▸ h3

/-- Witness for C7 on a two-group table. -/
theorem top5_length_sorted_sum_witness :
    (top5 [⟨some "A", some "An", 3⟩, ⟨some "B", some "Bn", 2⟩]).length =
      min 5 ([⟨some "A", some "An", 3⟩, ⟨some "B", some "Bn", 2⟩] : List GroupRow).length ∧
    (top5 [⟨some "A", some "An", 3⟩, ⟨some "B", some "Bn", 2⟩]).Pairwise
      (fun a b => b.trips ≤ a.trips) ∧
    ((top5 [⟨some "A", some "An", 3⟩, ⟨some "B", some "Bn", 2⟩]).map
      StationCount.trips).sum ≤
      (([⟨some "A", some "An", 3⟩, ⟨some "B", some "Bn", 2⟩] : List GroupRow).map
        GroupRow.trips).sum :=
  top5_length_sorted_sum [⟨some "A", some "An", 3⟩, ⟨some "B", some "Bn", 2⟩] (by decide)

/-! ## Claim C8 -/

theorem dedupAux_seen {k : Cell × Cell} :
    ∀ (n : Nat) (seen : List (Cell × Cell)), k ∈ seen →
      dedupAux (List.replicate n k) seen = [] := by
  intro n
  induction n with
  | zero => intro seen _; rfl
  | succ m ih =>
    intro seen hk
    rw [List.replicate_succ]
    unfold dedupAux
    rw [if_pos hk]
    exact ih seen hk

theorem dedupAux_replicate (n : Nat) (k : Cell × Cell) :
    dedupAux (List.replicate (n + 1) k) [] = [k] := by
  rw [List.replicate_succ]
  unfold dedupAux
  rw [if_neg (List.not_mem_nil k)]
  rw [dedupAux_seen n [k] (List.mem_singleton_self k)]

theorem groupSize_collapse {D : DataFrame} {idc nmc : String}
    (hne : D.rows ≠ [])
    (habs : ∀ r ∈ D.rows, D.getAt idc r = none ∧ D.getAt nmc r = none) :
    groupSize D idc nmc = [⟨none, none, D.rows.length⟩] := by
  simp only [groupSize]
  have hkeys : D.rows.map (fun r => (D.getAt idc r, D.getAt nmc r)) =
      List.replicate D.rows.length ((none : Cell), (none : Cell)) := by
    have hall : ∀ b ∈ D.rows.map (fun r => (D.getAt idc r, D.getAt nmc r)),
        b = ((none : Cell), (none : Cell)) := by
      intro b hb
      obtain ⟨r, hr, rfl⟩ := List.mem_map.mp hb
      obtain ⟨h1, h2⟩ := habs r hr
      rw [h1, h2]
    have := List.eq_replicate_of_mem hall
    rwa [List.length_map] at this
  rw [hkeys]
  cases hlen : D.rows.length with
  | zero => exact absurd (List.length_eq_zero.mp hlen) hne
  | succ n =>
    rw [dedupAux_replicate]
    simp [List.count_replicate]

/-- C8: if every row of the category-filtered trip set has absent station id
and absent station name, grouped counting collapses them into a single
group, and the leaderboard is exactly one entry
`{station_id := "Unknown", station_name := "Unknown", trips := N}` where `N`
is the number of such rows. -/
theorem unknown_station_collapse (df : DataFrame) (cat idc nmc : String)
    (hne : (filterCategory (memberCasualClean df) cat).rows ≠ [])
    (habs : ∀ r ∈ (filterCategory (memberCasualClean df) cat).rows,
      (filterCategory (memberCasualClean df) cat).getAt idc r = none ∧
      (filterCategory (memberCasualClean df) cat).getAt nmc r = none) :
    top5 (groupSize (filterCategory (memberCasualClean df) cat) idc nmc) =
      [{ station_id := "Unknown", station_name := "Unknown",
         trips := (filterCategory (memberCasualClean df) cat).rows.length }] := by
  rw [groupSize_collapse hne habs]
  rfl

/-- Witness for C8 on a two-row all-unknown casual trip set. -/
theorem unknown_station_collapse_witness :
    top5 (groupSize (filterCategory (memberCasualClean
      ⟨["member_casual", "start_station_id", "start_station_name"],
       [[some "casual", none, none], [some "casual", none, none]]⟩) "casual")
      "start_station_id" "start_station_name") =
      [{ station_id := "Unknown", station_name := "Unknown",
         trips := (filterCategory (memberCasualClean
           ⟨["member_casual", "start_station_id", "start_station_name"],
            [[some "casual", none, none], [some "casual", none, none]]⟩)
             "casual").rows.length }] :=
  unknown_station_collapse
    ⟨["member_casual", "start_station_id", "start_station_name"],
     [[some "casual", none, none], [some "casual", none, none]]⟩
    "casual" "start_station_id" "start_station_name" (by decide) (by decide)

/-! ## Claim C4 -/

/-- C4 counterexample: a row whose `started_at` value is unparsable is
dropped by normalization — `pd.to_datetime` coerces it to NaT, and the
year filter `df["started_at"].dt.year == YEAR` is false on NaT — so the
single input row disappears instead of being kept with an absent start
time. -/
theorem unparsable_start_dropped_cex :
    read_trips_from_zip (.zip [⟨"a.csv", [["started_at"], ["garbage"]]⟩]) 2025 =
      .ok ⟨["started_at", "member_casual"], []⟩ ∧
    (DataFrame.rows ⟨["started_at", "member_casual"], []⟩).length ≠ 1 :=
  ⟨rfl, by decide⟩

theorem yearFilter_rows_year {y : Int} {d : DataFrame}
    (hhas : d.hasCol "started_at" = true) :
    ∀ r ∈ (yearFilter y d).rows, cellYear (d.getAt "started_at" r) = some y := by
  unfold yearFilter
  rw [hhas, if_pos rfl]
  intro r hr
  exact of_decide_eq_true (List.mem_filter.mp hr).2

theorem yearFilter_rows_eq {y : Int} {d : DataFrame}
    (hhas : d.hasCol "started_at" = true) :
    (yearFilter y d).rows = d.rows.filter
      (fun r => decide (cellYear (d.getAt "started_at" r) = some y)) := by
  unfold yearFilter
  rw [hhas, if_pos rfl]

/-- C4 amended: when a `started_at` column exists, normalization keeps
exactly the rows of the decoded-and-derived frame whose start time parsed
successfully to the target year — the output row list is literally the year
filter of that frame (so every in-year-parsed row is retained, in order,
and nothing else is): rows whose start time is absent or unparsable are
dropped along with the out-of-year rows, not kept. In particular every
surviving row has a present, parsable, in-year start time. -/
theorem year_filter_keeps_exactly_target_year (zb : Bytes) (y : Int) (df : DataFrame)
    (header : List String) (data : List (List String))
    (hok : read_trips_from_zip zb y = .ok df)
    (hfc : firstCsvContent zb = some (header :: data))
    (hcol : "started_at" ∈ df.cols) :
    ∃ d0, readCsv (fun c => usecolsList.contains c) (header :: data) = .ok d0 ∧
      df.cols = (deriveRider (parseDates (relabel d0))).cols ∧
      df.rows = (deriveRider (parseDates (relabel d0))).rows.filter
        (fun r => decide (cellYear
          ((deriveRider (parseDates (relabel d0))).getAt "started_at" r) = some y)) ∧
      ∀ r ∈ df.rows, ∃ s, df.getAt "started_at" r = some s ∧
        parseTimestamp s = some y := by
  obtain ⟨header', data', df0, hfc', hcsv, hdf⟩ := read_trips_ok_elim hok
  rw [hfc] at hfc'
  injection hfc' with h1
  injection h1 with hh hd
  subst hh
  subst hd
  subst hdf
  have hcols : (yearFilter y (deriveRider (parseDates (relabel df0)))).cols =
      (deriveRider (parseDates (relabel df0))).cols := yearFilter_cols _ _
  rw [hcols] at hcol
  have hhas : (deriveRider (parseDates (relabel df0))).hasCol "started_at" = true :=
    hasCol_true_iff.mpr hcol
  refine ⟨df0, hcsv, hcols, yearFilter_rows_eq hhas, ?_⟩
  intro r hr
  have hcy := yearFilter_rows_year hhas r hr
  have hgeq := getAt_eq_of_cols_eq hcols "started_at" r
  cases hc : (deriveRider (parseDates (relabel df0))).getAt "started_at" r with
  | none => rw [hc] at hcy; exact absurd hcy (by simp [cellYear])
  | some s =>
    rw [hc] at hcy
    refine ⟨s, ?_, ?_⟩
    · rw [hgeq, hc]
    · simpa [cellYear] using hcy

/-- Witness for C4 amended on an archive with one in-year row. -/
theorem year_filter_keeps_exactly_target_year_witness :
    ∃ d0, readCsv (fun c => usecolsList.contains c)
        (["started_at"] :: [["2025-01-02"]]) = .ok d0 ∧
      DataFrame.cols ⟨["started_at", "member_casual"],
        [[some "2025-01-02", some "unknown"]]⟩ =
        (deriveRider (parseDates (relabel d0))).cols ∧
      DataFrame.rows ⟨["started_at", "member_casual"],
        [[some "2025-01-02", some "unknown"]]⟩ =
        (deriveRider (parseDates (relabel d0))).rows.filter
          (fun r => decide (cellYear
            ((deriveRider (parseDates (relabel d0))).getAt "started_at" r) = some 2025)) ∧
      ∀ r ∈ DataFrame.rows ⟨["started_at", "member_casual"],
          [[some "2025-01-02", some "unknown"]]⟩,
        ∃ s, DataFrame.getAt ⟨["started_at", "member_casual"],
          [[some "2025-01-02", some "unknown"]]⟩ "started_at" r = some s ∧
          parseTimestamp s = some 2025 :=
  year_filter_keeps_exactly_target_year
    (.zip [⟨"a.csv", [["started_at"], ["2025-01-02"]]⟩]) 2025
    ⟨["started_at", "member_casual"], [[some "2025-01-02", some "unknown"]]⟩
    ["started_at"] [["2025-01-02"]] rfl rfl (by decide)

/-! ## Claim C3 -/

/-- C3 counterexample: a source column labeled `Started_At` — differing from
the recognized `started_at` only in capitalization — is ignored, not
decoded: the `usecols` selection runs on raw labels before the strip/lower
relabel, so the decoded frame has no `started_at` column (only the
always-added `member_casual`), and the row's timestamp is lost. -/
theorem column_case_cex :
    read_trips_from_zip (.zip [⟨"a.csv", [["Started_At"], ["2025-01-02 03:04:05"]]⟩]) 2025 =
      .ok ⟨["member_casual"], [[some "unknown"]]⟩ ∧
    "started_at" ∉ (["member_casual"] : List String) :=
  ⟨rfl, by decide⟩

/-- C3 amended: column labels are matched against the recognized set on
their raw spelling at decode time (exact match, case- and
whitespace-sensitive); the strip/lowercase relabel happens only after
selection. Hence for every recognized name other than the always-present
`member_casual`, the normalized frame has that column iff the raw header
contains it verbatim. -/
theorem column_selection_exact_match (zb : Bytes) (y : Int) (df : DataFrame)
    (header : List String) (data : List (List String))
    (hok : read_trips_from_zip zb y = .ok df)
    (hfc : firstCsvContent zb = some (header :: data)) :
    "member_casual" ∈ df.cols ∧
    ∀ c ∈ usecolsList, c ≠ "member_casual" → (c ∈ df.cols ↔ c ∈ header) := by
  obtain ⟨header', data', df0, hfc', hcsv, hdf⟩ := read_trips_ok_elim hok
  rw [hfc] at hfc'
  injection hfc' with h1
  injection h1 with hh hd
  subst hh
  subst hd
  subst hdf
  have hcols0 : df0.cols = header.filter (fun x => usecolsList.contains x) :=
    (readCsv_ok hcsv).1
  constructor
  · rw [yearFilter_cols]
    exact deriveRider_mc_mem _
  · intro c hcu hcne
    rw [yearFilter_cols]
    have hpd : (parseDates (relabel df0)).cols = (relabel df0).cols := parseDates_cols _
    have hrel : (relabel df0).cols = df0.cols.map (fun x => strLower (strStrip x)) := rfl
    rcases deriveRider_cols (parseDates (relabel df0)) with hdr | hdr <;>
      rw [hdr, hpd, hrel, hcols0]
    · exact relabel_filter_mem hcu
    · rw [List.mem_append]
      constructor
      · intro h
        rcases h with h | h
        · exact (relabel_filter_mem hcu).mp h
        · exact absurd (List.mem_singleton.mp h) hcne
      · intro h
        exact Or.inl ((relabel_filter_mem hcu).mpr h)

/-- Witness for C3 amended: an archive with a verbatim `started_at` header
keeps the column; names absent from the header are absent from the frame. -/
theorem column_selection_exact_match_witness :
    "member_casual" ∈ (DataFrame.cols
      ⟨["started_at", "member_casual"], [[some "2025-01-02", some "unknown"]]⟩) ∧
    ∀ c ∈ usecolsList, c ≠ "member_casual" →
      (c ∈ (DataFrame.cols
        ⟨["started_at", "member_casual"], [[some "2025-01-02", some "unknown"]]⟩) ↔
       c ∈ (["started_at"] : List String)) :=
  column_selection_exact_match
    (.zip [⟨"a.csv", [["started_at"], ["2025-01-02"]]⟩]) 2025
    ⟨["started_at", "member_casual"], [[some "2025-01-02", some "unknown"]]⟩
    ["started_at"] [["2025-01-02"]] rfl rfl

/-! ## Claim C2 -/

/-- C2 counterexample: the legacy `usertype` mapping never happens. The
`usecols` lambda on lines 45-47 admits only the seven recognized names —
`usertype` is not among them — so a legacy file's `usertype` column is
dropped at decode time, the fallback branch on lines 60-63 is unreachable,
and a `Subscriber` row comes out as `"unknown"` instead of the claimed
`"member"`. -/
theorem rider_usertype_cex :
    read_trips_from_zip (.zip [⟨"trips.csv", [["usertype"], ["Subscriber"]]⟩]) 2025 =
      .ok ⟨["member_casual"], [[some "unknown"]]⟩ ∧
    (some "unknown" : Cell) ≠ some "member" :=
  ⟨rfl, by decide⟩

/-- C2 amended: normalization always produces a `member_casual` column, and
whenever the raw header does not contain the exact name `member_casual`,
every surviving row's rider category is `"unknown"` — the `usertype`
fallback can never fire because `usertype` is excluded by the decode-time
column filter. (When `member_casual` is present its lowercased value is used
unvalidated, so it can also be NaN or a value outside
`{"member","casual","unknown"}`.) -/
theorem rider_unknown_when_no_member_casual (zb : Bytes) (y : Int) (df : DataFrame)
    (header : List String) (data : List (List String))
    (hok : read_trips_from_zip zb y = .ok df)
    (hfc : firstCsvContent zb = some (header :: data))
    (hno : "member_casual" ∉ header) :
    "member_casual" ∈ df.cols ∧
    ∀ r ∈ df.rows, df.getAt "member_casual" r = some "unknown" := by
  obtain ⟨header', data', df0, hfc', hcsv, hdf⟩ := read_trips_ok_elim hok
  rw [hfc] at hfc'
  injection hfc' with h1
  injection h1 with hh hd
  subst hh
  subst hd
  subst hdf
  have hrect0 : df0.Rect := readCsv_rect hcsv
  have hcols0 : df0.cols = header.filter (fun x => usecolsList.contains x) :=
    (readCsv_ok hcsv).1
  have hc2 : (parseDates (relabel df0)).cols =
      df0.cols.map (fun x => strLower (strStrip x)) := by
    rw [parseDates_cols]
    rfl
  have hrect2 : (parseDates (relabel df0)).Rect := parseDates_rect (relabel_rect hrect0)
  have hmc2 : "member_casual" ∉ (parseDates (relabel df0)).cols := by
    rw [hc2, hcols0]
    intro hmem
    exact hno ((relabel_filter_mem mc_mem_usecols).mp hmem)
  have hut2 : "usertype" ∉ (parseDates (relabel df0)).cols := by
    rw [hc2, hcols0]
    intro hmem
    exact usertype_not_usecols (relabel_cols_sub _ hmem)
  have hdr : deriveRider (parseDates (relabel df0)) =
      (parseDates (relabel df0)).addColBy "member_casual" (fun _ => some "unknown") := by
    unfold deriveRider
    rw [hasCol_false_of_not_mem hmc2, hasCol_false_of_not_mem hut2]
    simp
  constructor
  · rw [yearFilter_cols]
    exact deriveRider_mc_mem _
  · intro r hr
    have hrd : r ∈ (deriveRider (parseDates (relabel df0))).rows :=
      yearFilter_rows_subset y _ r hr
    rw [hdr] at hrd
    obtain ⟨r0, _, _, hget⟩ := getAt_addColBy hrect2 hmc2 r hrd
    have hgeq := getAt_eq_of_cols_eq (yearFilter_cols y (deriveRider (parseDates (relabel df0))))
      "member_casual" r
    rw [hgeq, hdr]
    exact hget

/-- Witness for C2 amended on a legacy-style archive with no `member_casual`
column. -/
theorem rider_unknown_when_no_member_casual_witness :
    "member_casual" ∈ (DataFrame.cols ⟨["member_casual"], [[some "unknown"]]⟩) ∧
    ∀ r ∈ (DataFrame.rows ⟨["member_casual"], [[some "unknown"]]⟩),
      DataFrame.getAt ⟨["member_casual"], [[some "unknown"]]⟩ "member_casual" r =
        some "unknown" :=
  rider_unknown_when_no_member_casual
    (.zip [⟨"trips.csv", [["usertype"], ["Dependent"]]⟩]) 2025
    ⟨["member_casual"], [[some "unknown"]]⟩
    ["usertype"] [["Dependent"]] rfl rfl (by decide)

/-! ## Claim C1 -/

/-- Archive served for 2025-02 in the C1 counterexample. -/
def c1GoodBytes : Bytes :=
  .zip [⟨"data.csv", [["started_at", "member_casual"],
                      ["2025-02-03 04:05:06", "member"]]⟩]

/-- Fetch oracle for the C1 counterexample: the January request raises a
transport exception, February serves a good archive, every other month is a
404. -/
def c1FetchRaise : String → FetchResult := fun url =>
  if url = month_url 2025 1 then .raises
  else if url = month_url 2025 2 then .resp ⟨200, some "application/zip", c1GoodBytes⟩
  else .resp ⟨404, none, .nonzip []⟩

/-- The same oracle with January's transport failure replaced by an ordinary
404 (the `Absent` treatment the claim asserts). -/
def c1FetchAbsent : String → FetchResult := fun url =>
  if url = month_url 2025 1 then .resp ⟨404, none, .nonzip []⟩
  else c1FetchRaise url

/-- C1 counterexample: a transport exception on one month is NOT caught —
`try_fetch_zip` is called outside any `try` in `run`, so the exception
aborts the whole loop and February is never processed, even though treating
the same failure as Absent (second conjunct) would have produced a
successful run from February's data. -/
theorem run_transport_raise_cex :
    runCollect c1FetchRaise 2025 = .error .transportError ∧
    runCollect c1FetchAbsent 2025 =
      .ok [("2025-02", ⟨["started_at", "member_casual"],
        [[some "2025-02-03 04:05:06", some "member"]]⟩)] :=
  ⟨rfl, rfl⟩

/-- C1 amended: if no fetch raises a transport exception, the month loop
absorbs every per-month failure — Absent months and malformed archives are
skipped and the remaining months still processed — and the run terminates
abnormally only in the zero-months-succeeded case (`NoDataFound`). A raised
transport exception, however, propagates and aborts the run. -/
theorem collectMonthsAux_cons (fetch : String → FetchResult) (y m : Int)
    (ms : List Int) (acc : List (String × DataFrame)) :
    collectMonthsAux fetch y (m :: ms) acc =
      match fetch (month_url y m) with
      | .raises => .error .transportError
      | .resp r =>
        match try_fetch_zip r with
        | none => collectMonthsAux fetch y ms acc
        | some z =>
          match read_trips_from_zip z y with
          | .error _ => collectMonthsAux fetch y ms acc
          | .ok df => collectMonthsAux fetch y ms (acc ++ [(monthKey y m, df)]) := rfl

theorem run_no_raise_only_noDataFound (fetch : String → FetchResult)
    (hnr : ∀ s, fetch s ≠ .raises) (y : Int) :
    ∀ e, runCollect fetch y = .error e → e = .noDataFound := by
  have haux : ∀ ms acc e, collectMonthsAux fetch y ms acc ≠ .error e := by
    intro ms
    induction ms with
    | nil =>
      intro acc e h
      exact absurd h (by simp [collectMonthsAux])
    | cons m ms ih =>
      intro acc e h
      rw [collectMonthsAux_cons] at h
      split at h
      · exact absurd (by assumption) (hnr (month_url y m))
      · split at h
        · exact ih acc e h
        · split at h
          · exact ih acc e h
          · exact ih _ e h
  intro e he
  unfold runCollect at he
  split at he
  · exact absurd (by assumption) (haux monthsRange [] _)
  · have : RunError.noDataFound = e := by injection he
    exact this.symm
  · exact absurd he (by simp)

/-- Witness for C1 amended: with an all-404 oracle (no raises) the run fails
with `NoDataFound`, the only abnormal termination. -/
theorem run_no_raise_only_noDataFound_witness :
    RunError.noDataFound = RunError.noDataFound :=
  run_no_raise_only_noDataFound (fun _ => .resp ⟨404, none, .nonzip []⟩)
    (fun _ h => FetchResult.noConfusion h) 2025 .noDataFound rfl
